import Mathlib

/-!
Verification of the EduConnect application controller (src/app.js): a shallow
embedding of the lifecycle state, the auth-state bridge, the background-task
scheduler, the capability gate and the global failure interceptor, with
theorems settling the specification's claims about them.
-/

namespace EduConnect

/-! ### String helpers mirroring the JavaScript primitives the source uses

`String.split('/')`, `String.startsWith(p)` and `String.includes(sub)` are
re-implemented structurally over `List Char` so that concrete runs reduce in
the kernel. -/

/-- JavaScript `s.split(sep)` for a one-character separator, over char lists:
splitting the empty text yields one empty segment, as in JS. -/
def splitChar (sep : Char) : List Char → List (List Char)
  | [] => [[]]
  | c :: rest =>
    if c = sep then [] :: splitChar sep rest
    else
      match splitChar sep rest with
      | s :: ss => (c :: s) :: ss
      | [] => [[c]]

/-- JavaScript `path.split(sep)` returning strings. -/
def jsSplit (s : String) (sep : Char) : List String :=
  (splitChar sep s.data).map String.mk

/-- JavaScript `s.startsWith(p)`. -/
def jsStartsWith (s p : String) : Bool :=
  p.data.isPrefixOf s.data

/-- Occurrence of `sub` somewhere in `s`, over char lists. -/
def hasSub (sub : List Char) : List Char → Bool
  | [] => sub.isEmpty
  | c :: rest => sub.isPrefixOf (c :: rest) || hasSub sub rest

/-- JavaScript `s.includes(sub)`. -/
def jsIncludes (s sub : String) : Bool :=
  hasSub sub.data s.data

/-! ### Data model -/

/-- A user reference delivered by the auth collaborator (`authState.user`). -/
structure User where
  id : Nat
  name : String
deriving DecidableEq, Repr

/-- An auth-state notification (`authState` in `handleAuthStateChange`). -/
structure AuthSnapshot where
  isAuthenticated : Bool
  user : Option User
deriving DecidableEq, Repr

/-- The observable side effects of the auth bridge: `onUserLogin` fires the
`user_login` tracking event and the global user-info refresh, `onUserLogout`
fires the `user_logout` tracking event and the user-data cleanup. -/
inductive AuthEffect where
  | login (u : User)
  | logout
deriving DecidableEq, Repr

/-- What the document body shows: the normal app view, the incompatibility
notice from `showBrowserCompatibilityWarning`, or the fatal screen from
`handleCriticalError`. -/
inductive Body where
  | normal
  | compatWarning
  | criticalError
deriving DecidableEq, Repr

/-- A user-facing toast produced via `ui.showToast`, restricted to the kinds
the claims mention. -/
inductive Toast where
  | serverProblem
  | criticalReload
deriving DecidableEq, Repr

/-- The controller state: `isInitialized` and `currentUser` are the
`Application` instance fields; `authSubscribed` records whether
`initializeModules` registered the auth listener; `visible`, `path` and
`authed` mirror the environment signals (document visibility, the current
location path, the auth collaborator's `isAuthenticated`); `polling` is the
active chat-polling group id held by the UI collaborator; `body` is the
document body content. -/
structure AppState where
  isInitialized : Bool
  authSubscribed : Bool
  currentUser : Option User
  visible : Bool
  path : String
  authed : Bool
  polling : Option String
  body : Body
deriving DecidableEq, Repr

/-- The state as the `Application` constructor leaves it, on a visible tab at
the root route, before any sign-in. -/
def initialState : AppState :=
  { isInitialized := false
    authSubscribed := false
    currentUser := none
    visible := true
    path := "/"
    authed := false
    polling := none
    body := Body.normal }

/-! ### Auth state bridge (`handleAuthStateChange`) -/

/-- `handleAuthStateChange` from src/app.js.  The incoming user is cached
first (`this.currentUser = authState.user`), then the login branch fires when
the notification is authenticated with a user, and the logout branch fires
when it is unauthenticated and `this.currentUser` — already overwritten — is
non-null.  `onUserLogout`'s `cleanupUserData` stops chat polling.  Returns
the updated state and the side effects fired. -/
def handleAuthStateChange (st : AppState) (snap : AuthSnapshot) :
    AppState × List AuthEffect :=
  let st1 := { st with currentUser := snap.user }
  if snap.isAuthenticated && snap.user.isSome then
    (st1, (snap.user.map AuthEffect.login).toList)
  else if !snap.isAuthenticated && st1.currentUser.isSome then
    ({ st1 with polling := none }, [AuthEffect.logout])
  else
    (st1, [])

/-- A sequence of auth notifications delivered in order, accumulating the
side effects fired. -/
def runAuth (st : AppState) (snaps : List AuthSnapshot) :
    AppState × List AuthEffect :=
  match snaps with
  | [] => (st, [])
  | snap :: rest =>
    let out := handleAuthStateChange st snap
    let outRest := runAuth out.1 rest
    (outRest.1, out.2 ++ outRest.2)

/-! ### Background task scheduler -/

/-- The group id segment `currentPath.split('/')[2]`, with JS `undefined`
collapsing to the empty (falsy) string. -/
def groupIdOf (path : String) : String :=
  (jsSplit path '/').getD 2 ""

/-- `resumeBackgroundTasks` from src/app.js, reported as the group id it
starts polling for (`none` means no `ui.startChatPolling` call happens). -/
def resumeBackgroundTasks (path : String) : Option String :=
  if jsStartsWith path "/group/" then
    if groupIdOf path = "" then none else some (groupIdOf path)
  else none

/-- The environment signals the controller reacts to after startup: a
visibility change carrying the new visibility, a route navigation carrying
the new path, and an auth-state notification. -/
inductive Event where
  | visibility (visible : Bool)
  | route (path : String)
  | auth (snap : AuthSnapshot)
deriving Repr

/-- One event handled as src/app.js wires it: a hidden tab runs
`pauseBackgroundTasks` (stop polling), a visible tab runs
`resumeBackgroundTasks`; a navigation only updates the path (the
`router:navigate` listener just announces to the screen reader); an auth
notification runs `handleAuthStateChange`. -/
def step (st : AppState) (e : Event) : AppState :=
  match e with
  | Event.visibility false => { st with visible := false, polling := none }
  | Event.visibility true =>
    match resumeBackgroundTasks st.path with
    | some gid => { st with visible := true, polling := some gid }
    | none => { st with visible := true }
  | Event.route p => { st with path := p }
  | Event.auth snap =>
    (handleAuthStateChange { st with authed := snap.isAuthenticated } snap).1

/-- A finite sequence of events applied in order. -/
def run (st : AppState) : List Event → AppState
  | [] => st
  | e :: rest => run (step st e) rest

/-- The spec's wording of "the current route matches a group path
'/group/:id'", written from the spec for comparison with the code. -/
def routeMatchesGroup (path : String) : Bool :=
  jsStartsWith path "/group/" && !(groupIdOf path == "")

example : jsSplit "/group/5" '/' = ["", "group", "5"] := by decide
example : groupIdOf "/group/5" = "5" := by decide
example : resumeBackgroundTasks "/group/" = none := by decide
example : resumeBackgroundTasks "/group" = none := by decide
example : resumeBackgroundTasks "/group/42" = some "42" := by decide
example :
    (run initialState [Event.route "/group/5", Event.visibility false,
      Event.visibility true]).polling = some "5" := by decide

/-! ### Capability gate (`checkBrowserCompatibility`) -/

/-- The hosting environment reduced to the presence of the window properties
`checkBrowserCompatibility` feature-detects. -/
structure Window where
  fetch : Bool
  localStorage : Bool
  addEventListener : Bool
  querySelector : Bool
  classList : Bool
  Promise : Bool
  CustomEvent : Bool
deriving DecidableEq, Repr

/-- The `requiredFeatures` array of `checkBrowserCompatibility`. -/
def requiredFeatures : List String :=
  ["fetch", "localStorage", "addEventListener", "querySelector", "classList",
    "Promise", "CustomEvent"]

/-- Presence of one required feature on the window: the filter's per-feature
checks (`!window.fetch` and friends, `!window[feature]` for the rest). -/
def hasFeature (w : Window) (f : String) : Bool :=
  if f == "fetch" then w.fetch
  else if f == "localStorage" then w.localStorage
  else if f == "Promise" then w.Promise
  else if f == "CustomEvent" then w.CustomEvent
  else if f == "addEventListener" then w.addEventListener
  else if f == "querySelector" then w.querySelector
  else if f == "classList" then w.classList
  else false

/-- The `unsupportedFeatures` list: the required features whose check fails,
in the order of `requiredFeatures`. -/
def unsupportedFeatures (w : Window) : List String :=
  requiredFeatures.filter (fun f => !hasFeature w f)

/-- `checkBrowserCompatibility`: passes (returns `true`) exactly when no
required feature is missing; on failure the controller shows the
incompatibility warning. -/
def checkBrowserCompatibility (w : Window) : Bool :=
  (unsupportedFeatures w).isEmpty

/-- A window exposing every required capability. -/
def fullWindow : Window :=
  { fetch := true, localStorage := true, addEventListener := true
    querySelector := true, classList := true, Promise := true
    CustomEvent := true }

/-- The scenario window where only network fetch is missing. -/
def onlyFetchMissing : Window :=
  { fullWindow with fetch := false }

/-! ### Startup (`startApplication`, `init`, `handleCriticalError`) -/

/-- `handleCriticalError`: replaces the document body with the fatal
full-screen notice (and tracks the error); it touches nothing else. -/
def handleCriticalError (st : AppState) : AppState :=
  { st with body := Body.criticalError }

/-- `startApplication` from src/app.js: if the capability gate fails, the
warning has replaced the body and the function returns early; otherwise
`initializeModules` subscribes the auth listener and `isInitialized` is set. -/
def startApplication (w : Window) (st : AppState) : AppState :=
  if checkBrowserCompatibility w then
    { st with authSubscribed := true, isInitialized := true }
  else
    { st with body := Body.compatWarning }

/-- The stages `init` runs, in order: the four synchronous setup calls and
then (once the document is ready) `startApplication`. -/
inductive InitStep where
  | errorHandling
  | appEvents
  | perfMonitoring
  | accessibility
  | startApp
deriving DecidableEq, Repr

/-- The full stage sequence of `init`. -/
def initSteps : List InitStep :=
  [InitStep.errorHandling, InitStep.appEvents, InitStep.perfMonitoring,
    InitStep.accessibility, InitStep.startApp]

/-- The body of `init` before its catch: `failAt` models a stage throwing
(`none` = nothing throws).  Returns the stages performed and either the
resulting state or the raised error. -/
def initAttempt (w : Window) (failAt : Option InitStep) (st : AppState) :
    List InitStep × Except String AppState :=
  match failAt with
  | none => (initSteps, Except.ok (startApplication w st))
  | some s =>
    (initSteps.takeWhile (fun t => t != s), Except.error "initialization stage threw")

/-- `init` from src/app.js: the try/catch boundary around the stages.  A
raised error never escapes — it is routed to `handleCriticalError`.  Note
there is no `isInitialized` guard anywhere in it.  Returns the resulting
state and the stages performed. -/
def init (w : Window) (failAt : Option InitStep) (st : AppState) :
    AppState × List InitStep :=
  match initAttempt w failAt st with
  | (steps, Except.ok st1) => (st1, steps)
  | (steps, Except.error _) => (handleCriticalError st, steps)

/-! ### Global failure interceptor -/

/-- An `api:error` signal's payload (`event.detail`). -/
structure ApiError where
  status : Int
deriving DecidableEq, Repr

/-- The `api:error` listener in `setupGlobalErrorHandling`: always logs
(`console.warn`), returns early on 401 (delegated to the auth module), shows
the server-problem toast on status >= 500, does nothing more otherwise.
Returns (logged, toasts shown). -/
def handleApiErrorSignal (e : ApiError) : Bool × List Toast :=
  if e.status = 401 then (true, [])
  else if 500 ≤ e.status then (true, [Toast.serverProblem])
  else (true, [])

/-- A JavaScript error object carried by a global `error` event; `stack` is
its (possibly absent, possibly empty and hence falsy) stack-trace text. -/
structure JsError where
  stack : Option String
deriving DecidableEq, Repr

/-- A global `error` event: `error` may be absent. -/
structure ErrorEvent where
  error : Option JsError
deriving DecidableEq, Repr

/-- The condition of the `error` listener:
`event.error && event.error.stack && event.error.stack.includes('app.js')`,
the source's notion of a failure attributable to the controller's own code.
An empty stack string is falsy in JS and contains no occurrence here. -/
def attributableToApp (ev : ErrorEvent) : Bool :=
  match ev.error with
  | some err =>
    match err.stack with
    | some stk => jsIncludes stk "app.js"
    | none => false
  | none => false

/-- The global `error` listener in `setupGlobalErrorHandling`: shows the
critical-reload toast exactly when the failure is attributable to the
controller's own code, always tracks the error, and never touches the
controller state.  Returns the (unchanged) state and the toasts shown. -/
def handleGlobalError (st : AppState) (ev : ErrorEvent) :
    AppState × List Toast :=
  if attributableToApp ev then (st, [Toast.criticalReload])
  else (st, [])

/-! ### Health check -/

/-- The API collaborator's `healthCheck()` response (`response.ok`). -/
structure HealthResponse where
  ok : Bool
deriving DecidableEq, Repr

/-- `healthCheck` from src/app.js: awaits the API collaborator and returns
`response.ok`; a thrown error is caught and yields `false`. -/
def healthCheck (r : Except String HealthResponse) : Bool :=
  match r with
  | Except.ok resp => resp.ok
  | Except.error _ => false

example : unsupportedFeatures onlyFetchMissing = ["fetch"] := by decide
example : checkBrowserCompatibility fullWindow = true := by decide
example : (handleApiErrorSignal { status := 503 }).2 = [Toast.serverProblem] := by decide
example :
    attributableToApp { error := some { stack := some "Error at init (app.js:20)" } }
      = true := by decide
example : attributableToApp { error := some { stack := some "" } } = false := by decide

/-! ### Shared lemmas -/

/-- A group id `resumeBackgroundTasks` starts polling for is never empty. -/
theorem resumeBackgroundTasks_ne_empty {p g : String}
    (h : resumeBackgroundTasks p = some g) : g ≠ "" := by
  intro hg
  subst hg
  unfold resumeBackgroundTasks at h
  split_ifs at h
  simp_all

/-- Events never touch `isInitialized`, `authSubscribed` or the body: the
post-startup handlers only move polling, visibility, route and auth data. -/
theorem step_preserves_lifecycle (st : AppState) (e : Event) :
    (step st e).isInitialized = st.isInitialized ∧
    (step st e).authSubscribed = st.authSubscribed ∧
    (step st e).body = st.body := by
  cases e with
  | visibility b =>
    cases b with
    | false => exact ⟨rfl, rfl, rfl⟩
    | true =>
      cases hr : resumeBackgroundTasks st.path <;> simp [step, hr]
  | route p => exact ⟨rfl, rfl, rfl⟩
  | auth snap =>
    simp only [step, handleAuthStateChange]
    split_ifs <;> exact ⟨rfl, rfl, rfl⟩

/-- Event sequences never touch `isInitialized`, `authSubscribed` or the
body. -/
theorem run_preserves_lifecycle (evs : List Event) (st : AppState) :
    (run st evs).isInitialized = st.isInitialized ∧
    (run st evs).authSubscribed = st.authSubscribed ∧
    (run st evs).body = st.body := by
  induction evs generalizing st with
  | nil => exact ⟨rfl, rfl, rfl⟩
  | cons e rest ih =>
    have h1 := step_preserves_lifecycle st e
    have h2 := ih (step st e)
    exact ⟨h2.1.trans h1.1, h2.2.1.trans h1.2.1, h2.2.2.trans h1.2.2⟩

/-- The running-polling invariant: an active polling task implies a visible
tab and a non-empty group id. -/
def PollingInv (st : AppState) : Prop :=
  ∀ g, st.polling = some g → st.visible = true ∧ g ≠ ""

/-- Every event handler preserves the running-polling invariant. -/
theorem pollingInv_step {st : AppState} (e : Event) (h : PollingInv st) :
    PollingInv (step st e) := by
  cases e with
  | visibility b =>
    cases b with
    | false => intro g hg; simp [step] at hg
    | true =>
      intro g hg
      cases hr : resumeBackgroundTasks st.path with
      | none =>
        simp only [step, hr] at hg ⊢
        exact ⟨by trivial, (h g hg).2⟩
      | some gid =>
        simp only [step, hr] at hg ⊢
        rw [Option.some.injEq] at hg
        subst hg
        exact ⟨by trivial, resumeBackgroundTasks_ne_empty hr⟩
  | route p => intro g hg; exact h g hg
  | auth snap =>
    intro g hg
    simp only [step, handleAuthStateChange] at hg ⊢
    split_ifs at hg ⊢ <;> exact h g hg

/-- Every event sequence preserves the running-polling invariant. -/
theorem run_pollingInv (evs : List Event) (st : AppState) (h : PollingInv st) :
    PollingInv (run st evs) := by
  induction evs generalizing st with
  | nil => exact h
  | cons e rest ih => exact ih (step st e) (pollingInv_step e h)

/-! ### The claims -/

/-- Claim C1, amended: after every finite sequence of visibility, route and
auth events from the initial state, the chat-polling task is running only if
the tab is visible, and its group id is non-empty.  (The spec's full
three-way iff — visible AND group route AND authenticated — fails on the
code; see the counterexample.) -/
theorem polling_only_if_visible (evs : List Event) (g : String)
    (h : (run initialState evs).polling = some g) :
    (run initialState evs).visible = true ∧ g ≠ "" := by
  have h0 : PollingInv initialState := by
    intro g hg
    simp [initialState] at hg
  exact run_pollingInv evs initialState h0 g h

/-- Witness for C1's amended theorem: navigate to /group/5, hide, then show
the tab — polling runs for group 5 on a visible tab. -/
theorem polling_only_if_visible_witness :
    (run initialState [Event.route "/group/5", Event.visibility false,
      Event.visibility true]).visible = true ∧ "5" ≠ "" :=
  polling_only_if_visible
    [Event.route "/group/5", Event.visibility false, Event.visibility true]
    "5" (by decide)

/-- Counterexample to claim C1 as stated: after navigating to /group/5 and a
hide/show cycle with nobody signed in, polling is running although the user
is not authenticated, so "running iff visible AND group route AND
authenticated" is false. -/
theorem polling_iff_counterexample :
    ¬ ((run initialState [Event.route "/group/5", Event.visibility false,
          Event.visibility true]).polling.isSome
        = ((run initialState [Event.route "/group/5", Event.visibility false,
            Event.visibility true]).visible
          && routeMatchesGroup (run initialState [Event.route "/group/5",
              Event.visibility false, Event.visibility true]).path
          && (run initialState [Event.route "/group/5", Event.visibility false,
              Event.visibility true]).authed)) := by decide

/-- The concrete user of the auth scenarios. -/
def u0 : User := { id := 7, name := "Ana" }

/-- Claim C2 is violated by the code (code bug): `handleAuthStateChange`
overwrites `this.currentUser` before comparing, so a repeated identical
authenticated notification re-fires the login side effects, and an actual
authenticated-to-logged-out transition delivered as `{false, null}` fires no
logout side effect at all — never at most once per actual transition. -/
theorem auth_side_effects_refire :
    (runAuth initialState
      [{ isAuthenticated := true, user := some u0 },
        { isAuthenticated := true, user := some u0 }]).2
      = [AuthEffect.login u0, AuthEffect.login u0] ∧
    (runAuth initialState
      [{ isAuthenticated := true, user := some u0 },
        { isAuthenticated := false, user := none }]).2
      = [AuthEffect.login u0] := by decide

/-- The C3 scenario state: user u0 signed in, on /group/7, polling group 7. -/
def pollingLoggedInState : AppState :=
  { initialState with
    currentUser := some u0
    authed := true
    path := "/group/7"
    polling := some "7" }

/-- Claim C3 is violated by the code (code bug): a `{false, null}` logged-out
notification while polling group 7 clears the cached user and fires nothing
on repeats, but — because `this.currentUser` is overwritten before the logout
check — `onUserLogout` never runs and `ui.stopChatPolling` is never invoked:
polling keeps running. -/
theorem logout_leaves_polling_running :
    ((handleAuthStateChange pollingLoggedInState
        { isAuthenticated := false, user := none }).1.polling = some "7") ∧
    ((handleAuthStateChange pollingLoggedInState
        { isAuthenticated := false, user := none }).1.currentUser = none) ∧
    ((handleAuthStateChange pollingLoggedInState
        { isAuthenticated := false, user := none }).2 = []) ∧
    ((handleAuthStateChange
        (handleAuthStateChange pollingLoggedInState
          { isAuthenticated := false, user := none }).1
        { isAuthenticated := false, user := none }).2 = []) := by decide

/-- Claim C4: the capability gate fails exactly when some required capability
is absent, the reported list is exactly the missing capabilities, and in an
environment missing only network fetch it fails with missing list
`["fetch"]`. -/
theorem capabilityGate_reports_missing (w : Window) (f : String) :
    (checkBrowserCompatibility w = false
      ↔ ∃ g ∈ requiredFeatures, hasFeature w g = false) ∧
    (f ∈ unsupportedFeatures w ↔ f ∈ requiredFeatures ∧ hasFeature w f = false) ∧
    unsupportedFeatures onlyFetchMissing = ["fetch"] ∧
    checkBrowserCompatibility onlyFetchMissing = false := by
  refine ⟨?_, ?_, by decide, by decide⟩
  · constructor
    · intro hfalse
      cases hu : unsupportedFeatures w with
      | nil =>
        rw [checkBrowserCompatibility, hu] at hfalse
        simp at hfalse
      | cons a t =>
        have ha : a ∈ unsupportedFeatures w := by
          rw [hu]; exact List.mem_cons_self a t
        have hm := List.mem_filter.mp ha
        exact ⟨a, hm.1, by simpa using hm.2⟩
    · rintro ⟨g, hg, hfeat⟩
      have hmem : g ∈ unsupportedFeatures w :=
        List.mem_filter.mpr ⟨hg, by simp [hfeat]⟩
      rw [checkBrowserCompatibility]
      cases hu : unsupportedFeatures w with
      | nil => rw [hu] at hmem; exact absurd hmem (by simp)
      | cons a t => simp
  · rw [unsupportedFeatures, List.mem_filter]
    simp

/-- Claim C5: when the capability gate fails during `startApplication`, the
incompatibility notice replaces the body, and afterwards — whatever events
arrive — `isInitialized` never becomes true, the auth listener is never
subscribed, and the body stays the incompatibility notice. -/
theorem gate_failure_never_ready (w : Window) (evs : List Event)
    (h : checkBrowserCompatibility w = false) :
    (startApplication w initialState).body = Body.compatWarning ∧
    (run (startApplication w initialState) evs).isInitialized = false ∧
    (run (startApplication w initialState) evs).authSubscribed = false ∧
    (run (startApplication w initialState) evs).body = Body.compatWarning := by
  have hs : startApplication w initialState
      = { isInitialized := false, authSubscribed := false, currentUser := none,
          visible := true, path := "/", authed := false, polling := none,
          body := Body.compatWarning } := by
    unfold startApplication
    rw [h]
    simp [initialState]
  have hr := run_preserves_lifecycle evs (startApplication w initialState)
  refine ⟨?_, ?_, ?_, ?_⟩
  · rw [hs]
  · rw [hr.1, hs]
  · rw [hr.2.1, hs]
  · rw [hr.2.2, hs]

/-- Witness for C5: the fetch-missing environment with a subsequent
visibility event. -/
theorem gate_failure_never_ready_witness :
    (startApplication onlyFetchMissing initialState).body = Body.compatWarning ∧
    (run (startApplication onlyFetchMissing initialState)
      [Event.visibility false]).isInitialized = false ∧
    (run (startApplication onlyFetchMissing initialState)
      [Event.visibility false]).authSubscribed = false ∧
    (run (startApplication onlyFetchMissing initialState)
      [Event.visibility false]).body = Body.compatWarning :=
  gate_failure_never_ready onlyFetchMissing [Event.visibility false] (by decide)

/-- Claim C6: the global api:error interceptor always logs; a 401 produces no
notification of its own, a status of at least 500 produces exactly the one
server-problem notification, and every other status produces none. -/
theorem apiError_policy (e : ApiError) :
    (handleApiErrorSignal e).1 = true ∧
    (e.status = 401 → (handleApiErrorSignal e).2 = []) ∧
    (500 ≤ e.status → (handleApiErrorSignal e).2 = [Toast.serverProblem]) ∧
    (e.status ≠ 401 → e.status < 500 → (handleApiErrorSignal e).2 = []) := by
  refine ⟨?_, ?_, ?_, ?_⟩
  · unfold handleApiErrorSignal
    split_ifs <;> rfl
  · intro h
    simp [handleApiErrorSignal, h]
  · intro h
    have h401 : ¬ e.status = 401 := by omega
    simp [handleApiErrorSignal, h401, h]
  · intro h1 h2
    have h5 : ¬ (500 : Int) ≤ e.status := by omega
    simp [handleApiErrorSignal, h1, h5]

/-- Claim C7: an uncaught synchronous failure shows the reload-required
notification exactly when it is attributable to the controller's own code
(its stack mentions app.js), is otherwise logged with no notification, and
the controller state never changes. -/
theorem globalError_policy (st : AppState) (ev : ErrorEvent) :
    (handleGlobalError st ev).1 = st ∧
    (attributableToApp ev = true →
      (handleGlobalError st ev).2 = [Toast.criticalReload]) ∧
    (attributableToApp ev = false → (handleGlobalError st ev).2 = []) := by
  refine ⟨?_, fun h => ?_, fun h => ?_⟩ <;>
    simp only [handleGlobalError] <;>
    first
      | (split_ifs <;> rfl)
      | simp [h]

/-- Claim C8, amended: `init` performs its setup stages unconditionally — it
has no `isInitialized` guard, so the work does not depend on that flag — and
it never throws past its boundary: a stage failure is caught and routed to
`handleCriticalError`, which renders the fatal screen, while a failure-free
run performs every stage and ends in `startApplication`. -/
theorem init_boundary (w : Window) (failAt : Option InitStep) (st : AppState) :
    (init w failAt st).2 = (init w failAt { st with isInitialized := true }).2 ∧
    (∀ s, failAt = some s →
      (init w failAt st).1 = handleCriticalError st ∧
      (init w failAt st).1.body = Body.criticalError) ∧
    (failAt = none →
      (init w failAt st).2 = initSteps ∧
      (init w failAt st).1 = startApplication w st) := by
  cases failAt <;> simp [init, initAttempt, handleCriticalError]

/-- Counterexample to claim C8 as stated: on a state already marked
initialized, a repeated `init` call still performs all five setup stages —
there is no `isInitialized` guard avoiding duplicate work. -/
theorem init_unguarded_counterexample :
    ({ initialState with isInitialized := true } : AppState).isInitialized = true ∧
    (init fullWindow none { initialState with isInitialized := true }).2
      = initSteps ∧
    initSteps ≠ [] := by decide

/-- Claim C9: `healthCheck` is total at its interface — for every collaborator
outcome it returns a boolean, a thrown error yields `false`, and a response
yields its `ok` flag. -/
theorem healthCheck_total (r : Except String HealthResponse) :
    (healthCheck r = true ∨ healthCheck r = false) ∧
    (∀ msg, r = Except.error msg → healthCheck r = false) ∧
    (∀ resp, r = Except.ok resp → healthCheck r = resp.ok) := by
  refine ⟨?_, ?_, ?_⟩ <;> cases r <;> simp [healthCheck]

/-- Claim C10: `resumeBackgroundTasks` starts polling only with a non-empty
group id; on '/group/', on '/group' and on every non-group path it performs
no start call. -/
theorem resume_needs_group_id (p g : String) :
    (resumeBackgroundTasks p = some g → g ≠ "") ∧
    resumeBackgroundTasks "/group/" = none ∧
    resumeBackgroundTasks "/group" = none ∧
    (jsStartsWith p "/group/" = false → resumeBackgroundTasks p = none) := by
  refine ⟨fun h => resumeBackgroundTasks_ne_empty h, by decide, by decide, fun h => ?_⟩
  unfold resumeBackgroundTasks
  simp [h]

end EduConnect
